import Mathlib

/-!
Verification development for the TLS certificate monitoring tool
(`src/main.py`).  The Python source is shallowly embedded: pure helpers
become Lean functions over `List Char` / `String`, the network and the
external `openssl` process are modelled as an explicit outcome
environment (`NetEnv`), exceptions become explicit error results, and
`datetime` instants are modelled at one-second granularity as integer
timestamps obtained from a civil-calendar conversion.
-/

namespace TLSMon

/-! ## Basic string utilities (Python `str` semantics at the char level)

Lean's own `String.splitOn`, `String.trim`, … are compiled with
well-founded recursion and do not reduce in the kernel, so the Python
string primitives used by `main.py` are re-implemented structurally
over `List Char` with the semantics of `str.split`, `str.strip`,
substring containment (`in`), and `str.lower`.
-/

/-- Python `s.split(sep)` for a single-character separator: splits on every
occurrence, keeping empty pieces; `"".split(",") == [""]`. -/
def splitChar (sep : Char) : List Char → List (List Char)
  | [] => [[]]
  | c :: cs =>
    if c = sep then [] :: splitChar sep cs
    else
      match splitChar sep cs with
      | [] => [[c]]
      | p :: ps => (c :: p) :: ps

/-- Python `s.strip()`: drop whitespace from both ends. -/
def stripChars (cs : List Char) : List Char :=
  ((cs.dropWhile Char.isWhitespace).reverse.dropWhile Char.isWhitespace).reverse

/-- Is `needle` a prefix of `hay`? (Char-level, executable.) -/
def prefixOfB : List Char → List Char → Bool
  | [], _ => true
  | _ :: _, [] => false
  | a :: as, b :: bs => a = b && prefixOfB as bs

/-- Is `needle` a contiguous substring of `hay`?  Python `needle in hay`. -/
def containsSub (hay needle : List Char) : Bool :=
  match hay with
  | [] => prefixOfB needle []
  | _ :: rest => prefixOfB needle hay || containsSub rest needle

/-- Python `needle in hay` on `String`s. -/
def strContains (hay needle : String) : Bool :=
  containsSub hay.data needle.data

/-- Python `s.split(sep)` on `String`s (single-char separator). -/
def pySplit (s : String) (sep : Char) : List String :=
  (splitChar sep s.data).map String.mk

/-- Python `s.strip()` on `String`s. -/
def pyStrip (s : String) : String :=
  String.mk (stripChars s.data)

/-! ## Configuration and domain parsing (`load_config` / `validate_config` /
`parse_domains` in `src/main.py`) -/

/-- `validate_config` (src/main.py:46-49): raises
`RuntimeError("Missing MONITOR_DOMAINS")` when the domain string is falsy
(empty); modelled as `Except`. -/
def validate_config (domains_str : String) : Except String Unit :=
  if domains_str = "" then .error "Missing MONITOR_DOMAINS" else .ok ()

/-- `parse_domains` (src/main.py:52-54):
`[d.strip() for d in domains_str.split(",") if d.strip()]` — a list of
plain hostname strings, no remediation-URL pairing. -/
def parse_domains (domains_str : String) : List String :=
  ((pySplit domains_str ',').map pyStrip).filter (fun d => d ≠ "")

/-! ## Date parsing: `datetime.strptime` with the certificate formats

The strict path parses `notAfter` with format `"%b %d %H:%M:%S %Y %Z"`
(src/main.py:86); the relaxed path parses the openssl end-date with
`"%b  %d %H:%M:%S %Y %Z"` (src/main.py:146).  CPython `_strptime`
compiles a format to a regex in which every whitespace run of the format
becomes `\s+`, `%b` matches a month abbreviation case-insensitively,
`%d`/`%H`/`%M`/`%S` match one or two digits within range, `%Y` matches
exactly four digits, `%Z` matches a timezone name such as GMT or UTC,
the whole input must be consumed, and the resulting civil date must be
valid (`datetime.date` raises on e.g. Feb 30).  Both formats therefore
compile to the *same* matcher, embedded once below. -/

structure DateTime where
  year : Nat
  month : Nat
  day : Nat
  hour : Nat
  minute : Nat
  second : Nat
deriving DecidableEq, Repr

/-- Numeric value of a digit character. -/
def digitVal (c : Char) : Nat := c.toNat - 48

/-- Split a char list into its maximal leading digit run and the rest. -/
def takeDigits : List Char → List Char × List Char
  | [] => ([], [])
  | c :: cs =>
    if c.isDigit then
      let p := takeDigits cs
      (c :: p.1, p.2)
    else ([], c :: cs)

/-- Decimal value of a digit run. -/
def digitsToNat (ds : List Char) : Nat :=
  ds.foldl (fun a c => 10 * a + digitVal c) 0

/-- Parse a numeric field: a digit run of length in `[minLen, maxLen]`
whose value lies in `[lo, hi]` (the effect of the `_strptime` regex
alternations for `%d`, `%H`, `%M`, `%S`, `%Y` when followed by a
non-digit). -/
def parseNumField (minLen maxLen lo hi : Nat) (cs : List Char) :
    Option (Nat × List Char) :=
  let p := takeDigits cs
  if p.1.length < minLen || maxLen < p.1.length then none
  else
    let v := digitsToNat p.1
    if lo ≤ v && v ≤ hi then some (v, p.2) else none

/-- Consume one mandatory whitespace character and any further whitespace:
the `\s+` regex piece that every whitespace run of a strptime format
compiles to. -/
def skipWs1 : List Char → Option (List Char)
  | [] => none
  | c :: cs =>
    if c.isWhitespace then some (cs.dropWhile Char.isWhitespace) else none

/-- Expect one literal character. -/
def expectChar (c : Char) : List Char → Option (List Char)
  | [] => none
  | x :: xs => if x = c then some xs else none

/-- Month number of a lowercased three-letter abbreviation (`%b`,
case-insensitive in `_strptime`). -/
def monthOfAbbrev (s : String) : Option Nat :=
  match s with
  | "jan" => some 1
  | "feb" => some 2
  | "mar" => some 3
  | "apr" => some 4
  | "may" => some 5
  | "jun" => some 6
  | "jul" => some 7
  | "aug" => some 8
  | "sep" => some 9
  | "oct" => some 10
  | "nov" => some 11
  | "dec" => some 12
  | _ => none

/-- Parse a `%b` month abbreviation. -/
def parseMonth : List Char → Option (Nat × List Char)
  | a :: b :: c :: rest =>
    match monthOfAbbrev (String.mk [a.toLower, b.toLower, c.toLower]) with
    | some m => some (m, rest)
    | none => none
  | _ => none

/-- Gregorian leap year (as used by `datetime.date`). -/
def isLeap (y : Nat) : Bool :=
  y % 4 == 0 && (y % 100 != 0 || y % 400 == 0)

/-- Days in a civil month. -/
def daysInMonth (y m : Nat) : Nat :=
  if m = 2 then (if isLeap y then 29 else 28)
  else if m = 4 || m = 6 || m = 9 || m = 11 then 30
  else 31

/-- The common matcher for both certificate date formats
(`"%b %d %H:%M:%S %Y %Z"` and `"%b  %d %H:%M:%S %Y %Z"`): month
abbreviation, whitespace run, day, whitespace run, HH:MM:SS, whitespace
run, four-digit year, whitespace run, timezone name, end of input;
then civil-date validity as enforced by `datetime.date`. -/
def strptimeCertCore (cs : List Char) : Option DateTime := do
  let (mon, r1) ← parseMonth cs
  let r2 ← skipWs1 r1
  let (day, r3) ← parseNumField 1 2 1 31 r2
  let r4 ← skipWs1 r3
  let (hh, r5) ← parseNumField 1 2 0 23 r4
  let r6 ← expectChar ':' r5
  let (mi, r7) ← parseNumField 1 2 0 59 r6
  let r8 ← expectChar ':' r7
  let (ss, r9) ← parseNumField 1 2 0 59 r8
  let r10 ← skipWs1 r9
  let (yr, r11) ← parseNumField 4 4 1 9999 r10
  let r12 ← skipWs1 r11
  let tz := String.mk (r12.map Char.toLower)
  if (tz = "gmt" || tz = "utc") && day ≤ daysInMonth yr mon then
    some ⟨yr, mon, day, hh, mi, ss⟩
  else none

/-- `datetime.strptime(expires_str, "%b %d %H:%M:%S %Y %Z")`
(src/main.py:86, strict path). -/
def strptime_notAfter (s : String) : Option DateTime :=
  strptimeCertCore s.data

/-- `datetime.strptime(enddate_str, "%b  %d %H:%M:%S %Y %Z")`
(src/main.py:146, relaxed path).  The double space of the format
compiles, like the single space, to `\s+`, so the matcher coincides with
the strict one. -/
def strptime_enddate (s : String) : Option DateTime :=
  strptimeCertCore s.data

/-! ## Instants and day counts -/

/-- Days from 1970-01-01 to civil date `(y, m, d)` (standard civil
calendar conversion; embeds `datetime.date.toordinal` shifted to the
Unix epoch). -/
def daysFromCivil (y m d : Int) : Int :=
  let yy := if m ≤ 2 then y - 1 else y
  let era := Int.fdiv yy 400
  let yoe := yy - era * 400
  let mp := (m + 9) % 12
  let doy := Int.fdiv (153 * mp + 2) 5 + d - 1
  let doe := yoe * 365 + Int.fdiv yoe 4 - Int.fdiv yoe 100 + doy
  era * 146097 + doe - 719468

/-- Timestamp (seconds since the epoch) of a naive `datetime`. -/
def tsOf (dt : DateTime) : Int :=
  86400 * daysFromCivil dt.year dt.month dt.day
    + 3600 * dt.hour + 60 * dt.minute + dt.second

/-- `(expires_at - datetime.now()).days` (src/main.py:88,148):
`timedelta.days` is the floor of the difference in whole days. -/
def daysBetween (now expires : Int) : Int :=
  Int.fdiv (expires - now) 86400

/-! ## Result data model (`get_certificate_expiry` return dict) -/

inductive Status where
  | OK
  | CRITICAL
  | EXPIRED
  | ERROR
deriving DecidableEq, Repr

/-- The per-domain result dictionary built by `get_certificate_expiry`
(src/main.py:98-104 and the error branches). -/
structure CertResult where
  domain : String
  expires_at : Option DateTime
  days_remaining : Option Int
  status : Status
  error : Option String
deriving DecidableEq, Repr

/-- An ERROR result (`expires_at`/`days_remaining` absent, message set). -/
def mkError (domain msg : String) : CertResult :=
  { domain := domain, expires_at := none, days_remaining := none,
    status := .ERROR, error := some msg }

/-- The status classification duplicated at src/main.py:91-96 and
150-155: EXPIRED below zero, CRITICAL below seven, OK otherwise. -/
def statusOf (days_remaining : Int) : Status :=
  if days_remaining < 0 then .EXPIRED
  else if days_remaining < 7 then .CRITICAL
  else .OK

/-- A successfully classified result (src/main.py:88-104, 148-163). -/
def classifyResult (domain : String) (dt : DateTime) (now : Int) : CertResult :=
  let d := daysBetween now (tsOf dt)
  { domain := domain, expires_at := some dt, days_remaining := some d,
    status := statusOf d, error := none }

/-! ## Network / subprocess environment

`get_certificate_expiry` interacts with the outside world three times:
the strict handshake (src/main.py:74-79), the relaxed handshake
(src/main.py:111-119), and the `openssl x509 -noout -enddate`
subprocess (src/main.py:134-140).  Each interaction is modelled by an
outcome datum; a `NetEnv` fixes all three for one domain check. -/

/-- Outcome of the strict handshake: success carries
`getpeercert().get("notAfter")`; `sslError` models `ssl.SSLError` with
its `str(e)` message; `otherError` models every other exception (DNS
failure, connection refused, timeout, …) with its `str(e)` message. -/
inductive StrictOutcome where
  | success (notAfter : Option String)
  | sslError (msg : String)
  | otherError (msg : String)
deriving DecidableEq, Repr

/-- Outcome of the relaxed handshake: success carries the raw DER bytes
from `getpeercert(True)` (`""` models `None`/empty, both falsy); `exn`
models any exception, message per `str(fallback_e)`. -/
inductive RelaxedOutcome where
  | success (certDer : String)
  | exn (msg : String)
deriving DecidableEq, Repr

/-- Outcome of the `openssl` subprocess: `ran` carries return code,
stdout and stderr; `exn` models an exception while invoking or parsing
(timeout, missing binary, …), message per `str(openssl_e)`. -/
inductive OpensslOutcome where
  | ran (exitCode : Int) (stdout : String) (stderr : String)
  | exn (msg : String)
deriving DecidableEq, Repr

/-- The complete external behaviour for one domain check. -/
structure NetEnv where
  strict : StrictOutcome
  relaxed : RelaxedOutcome
  openssl : OpensslOutcome
deriving DecidableEq, Repr

/-- A handshake attempt, for tracing the fallback protocol: `tls` is the
strict verified attempt, `relaxed` the unverified fallback attempt with
`check_hostname = False` and `verify_mode = CERT_NONE`. -/
inductive Attempt where
  | tls
  | relaxed
deriving DecidableEq, Repr

/-- Message of the `ValueError` raised by `datetime.strptime` on a
mismatch (modelled text). -/
def strptimeErrMsg (s fmt : String) : String :=
  "time data " ++ s ++ " does not match format " ++ fmt

/-- Strict-path extraction and classification, entered once the strict
handshake has succeeded (src/main.py:79-104):  a missing or empty
`notAfter` raises `ValueError("Certificate missing notAfter field")`,
caught by the outer handler (src/main.py:197-204); a malformed date
raises inside `strptime`, likewise caught by the outer handler. -/
def strictExtract (domain : String) (notAfter : Option String) (now : Int) :
    CertResult :=
  match notAfter with
  | none => mkError domain "Certificate missing notAfter field"
  | some s =>
    if s = "" then mkError domain "Certificate missing notAfter field"
    else
      match strptime_notAfter s with
      | some dt => classifyResult domain dt now
      | none => mkError domain (strptimeErrMsg s "%b %d %H:%M:%S %Y %Z")

/-- The relaxed fallback tier (src/main.py:110-187): relaxed handshake,
empty-certificate check, `openssl` end-date extraction
(`result.stdout.strip().split("=")[1]`, an `IndexError` when there is
no `=`), date parse; every exception inside the inner `try` becomes
`"Certificate parsing error: …"`, a non-zero exit becomes
`"OpenSSL parsing failed: …"`, and any exception in the outer fallback
`try` becomes a plain `str(fallback_e)` ERROR. -/
def relaxedExtract (domain : String) (env : NetEnv) (now : Int) : CertResult :=
  match env.relaxed with
  | .exn msg => mkError domain msg
  | .success certDer =>
    if certDer = "" then mkError domain "Could not retrieve certificate"
    else
      match env.openssl with
      | .exn msg => mkError domain ("Certificate parsing error: " ++ msg)
      | .ran exitCode stdout stderr =>
        if exitCode = 0 then
          match (pySplit (pyStrip stdout) '=').get? 1 with
          | none =>
            mkError domain ("Certificate parsing error: " ++
              "list index out of range")
          | some enddate_str =>
            match strptime_enddate enddate_str with
            | some dt => classifyResult domain dt now
            | none =>
              mkError domain ("Certificate parsing error: " ++
                strptimeErrMsg enddate_str "%b  %d %H:%M:%S %Y %Z")
        else mkError domain ("OpenSSL parsing failed: " ++ stderr)

/-- `get_certificate_expiry` (src/main.py:61-204) instrumented with the
list of handshake attempts it makes, in order.  The strict handshake is
always attempted; an `ssl.SSLError` whose message contains
`CERTIFICATE_VERIFY_FAILED` (src/main.py:109) triggers exactly one
relaxed attempt; every other failure is terminal with the underlying
message (src/main.py:188-204). -/
def get_certificate_expiry_run (domain : String) (env : NetEnv) (now : Int) :
    CertResult × List Attempt :=
  match env.strict with
  | .success notAfter => (strictExtract domain notAfter now, [.tls])
  | .sslError msg =>
    if strContains msg "CERTIFICATE_VERIFY_FAILED" then
      (relaxedExtract domain env now, [.tls, .relaxed])
    else (mkError domain msg, [.tls])
  | .otherError msg => (mkError domain msg, [.tls])

/-- `get_certificate_expiry`: the result dictionary alone. -/
def get_certificate_expiry (domain : String) (env : NetEnv) (now : Int) :
    CertResult :=
  (get_certificate_expiry_run domain env now).1

/-- `check_threshold` (src/main.py:207-221). -/
def check_threshold (cert_info : CertResult) (threshold_days : Int) : Bool :=
  if cert_info.status = .ERROR then true
  else
    match cert_info.days_remaining with
    | none => true
    | some d => d < threshold_days

/-! ## JSON batch output and `main` (src/main.py:259-344) -/

/-- `json.dumps` escaping for one character. -/
def jsonEscapeChar (c : Char) : String :=
  if c = '"' then "\\\""
  else if c = '\\' then "\\\\"
  else if c = '\n' then "\\n"
  else if c = '\r' then "\\r"
  else if c = '\t' then "\\t"
  else if c.toNat < 32 then
    "\\u00" ++ String.mk [Char.ofNat (48 + c.toNat / 16),
      (if c.toNat % 16 < 10 then Char.ofNat (48 + c.toNat % 16)
       else Char.ofNat (87 + c.toNat % 16))]
  else String.mk [c]

/-- A `json.dumps` string literal. -/
def jsonStr (s : String) : String :=
  "\"" ++ String.join (s.data.map jsonEscapeChar) ++ "\""

/-- The wire name of a status. -/
def statusText : Status → String
  | .OK => "OK"
  | .CRITICAL => "CRITICAL"
  | .EXPIRED => "EXPIRED"
  | .ERROR => "ERROR"

/-- Left-pad a numeral to two digits. -/
def pad2 (n : Nat) : String :=
  if n < 10 then "0" ++ toString n else toString n

/-- Left-pad a numeral to four digits. -/
def pad4 (n : Nat) : String :=
  if n < 10 then "000" ++ toString n
  else if n < 100 then "00" ++ toString n
  else if n < 1000 then "0" ++ toString n
  else toString n

/-- `datetime.isoformat()` at second granularity (src/main.py:337). -/
def isoOf (dt : DateTime) : String :=
  pad4 dt.year ++ "-" ++ pad2 dt.month ++ "-" ++ pad2 dt.day ++ "T" ++
    pad2 dt.hour ++ ":" ++ pad2 dt.minute ++ ":" ++ pad2 dt.second

/-- One element of the `alerts=<json>` array (src/main.py:333-339):
`{domain, status, days_remaining, expires_at (ISO-8601 or null), error}`
with `json.dumps` default separators. -/
def jsonOfAlert (r : CertResult) : String :=
  "\x7b\"domain\": " ++ jsonStr r.domain ++
    ", \"status\": " ++ jsonStr (statusText r.status) ++
    ", \"days_remaining\": " ++
      (match r.days_remaining with
       | some d => toString d
       | none => "null") ++
    ", \"expires_at\": " ++
      (match r.expires_at with
       | some dt => jsonStr (isoOf dt)
       | none => "null") ++
    ", \"error\": " ++
      (match r.error with
       | some e => jsonStr e
       | none => "null") ++
  "\x7d"

/-- `json.dumps([...])` over the alerting results (src/main.py:333). -/
def alertsJson (rs : List CertResult) : String :=
  "[" ++ String.intercalate ", " (rs.map jsonOfAlert) ++ "]"

/-- What `main` produced: the per-domain results, the return value
(`return 0` / `return 1`), and the lines appended to the
`GITHUB_OUTPUT` sink. -/
structure MainOutcome where
  results : List CertResult
  exitCode : Nat
  ghaLines : List String
deriving DecidableEq, Repr

/-- `main` (src/main.py:259-344) after configuration loading, modelled
over the already-loaded domain string and threshold, a per-domain
network environment, the clock, and whether a `GITHUB_OUTPUT` sink is
designated.  `validate_config` aborts with `RuntimeError` before any
domain is checked; otherwise every domain is checked in order, alerts
are the results passing `check_threshold`, the sink receives one
`alerts=<json>` line exactly when alerts exist and a sink is designated,
and the return value is 1 when alerts exist, else 0. -/
def main_run (domains_str : String) (threshold_days : Int)
    (net : String → NetEnv) (now : Int) (ghaOutput : Bool) :
    Except String MainOutcome :=
  match validate_config domains_str with
  | .error e => .error e
  | .ok _ =>
    let domains := parse_domains domains_str
    let results := domains.map (fun d => get_certificate_expiry d (net d) now)
    let alerts := results.filter (fun r => check_threshold r threshold_days)
    if alerts.isEmpty then .ok ⟨results, 0, []⟩
    else
      .ok ⟨results, 1,
        if ghaOutput then ["alerts=" ++ alertsJson alerts] else []⟩

/-! ## Structural lemmas about `get_certificate_expiry` -/

/-- The classifier never yields ERROR. -/
theorem statusOf_ne_ERROR (d : Int) : statusOf d ≠ .ERROR := by
  unfold statusOf
  split
  · simp
  · split <;> simp

/-- `get_certificate_expiry` unfolded to the branch on the strict
handshake outcome. -/
theorem gce_eq (domain : String) (env : NetEnv) (now : Int) :
    get_certificate_expiry domain env now =
      match env.strict with
      | .success notAfter => strictExtract domain notAfter now
      | .sslError msg =>
        if strContains msg "CERTIFICATE_VERIFY_FAILED" then
          relaxedExtract domain env now
        else mkError domain msg
      | .otherError msg => mkError domain msg := by
  unfold get_certificate_expiry get_certificate_expiry_run
  obtain ⟨st, rel, op⟩ := env
  cases st with
  | success notAfter => rfl
  | sslError msg =>
    simp only []
    split <;> rfl
  | otherError msg => rfl

/-- Every strict-path extraction is an error result or a classified
result. -/
theorem strictExtract_shape (domain : String) (na : Option String) (now : Int) :
    (∃ msg, strictExtract domain na now = mkError domain msg) ∨
    (∃ dt, strictExtract domain na now = classifyResult domain dt now) := by
  unfold strictExtract
  split
  · exact .inl ⟨_, rfl⟩
  · split
    · exact .inl ⟨_, rfl⟩
    · split
      · exact .inr ⟨_, rfl⟩
      · exact .inl ⟨_, rfl⟩

/-- Every relaxed-path extraction is an error result or a classified
result. -/
theorem relaxedExtract_shape (domain : String) (env : NetEnv) (now : Int) :
    (∃ msg, relaxedExtract domain env now = mkError domain msg) ∨
    (∃ dt, relaxedExtract domain env now = classifyResult domain dt now) := by
  unfold relaxedExtract
  split
  · exact .inl ⟨_, rfl⟩
  · split
    · exact .inl ⟨_, rfl⟩
    · split
      · exact .inl ⟨_, rfl⟩
      · split
        · split
          · exact .inl ⟨_, rfl⟩
          · split
            · exact .inr ⟨_, rfl⟩
            · exact .inl ⟨_, rfl⟩
        · exact .inl ⟨_, rfl⟩

/-- Every produced result is an error result or a classified result. -/
theorem gce_shape (domain : String) (env : NetEnv) (now : Int) :
    (∃ msg, get_certificate_expiry domain env now = mkError domain msg) ∨
    (∃ dt, get_certificate_expiry domain env now = classifyResult domain dt now) := by
  obtain ⟨st, rel, op⟩ := env
  unfold get_certificate_expiry get_certificate_expiry_run
  cases st with
  | success notAfter => exact strictExtract_shape domain notAfter now
  | sslError msg =>
    dsimp only
    split
    · exact relaxedExtract_shape domain ⟨.sslError msg, rel, op⟩ now
    · exact .inl ⟨_, rfl⟩
  | otherError msg => exact .inl ⟨_, rfl⟩

/-- The result always names the checked domain. -/
theorem gce_domain_eq (domain : String) (env : NetEnv) (now : Int) :
    (get_certificate_expiry domain env now).domain = domain := by
  rcases gce_shape domain env now with ⟨msg, h⟩ | ⟨dt, h⟩ <;> rw [h] <;> rfl

/-! ## Claim theorems -/

/-- C2: for every result with a decoded expiration, `days_remaining` is
the floor of the whole days between the current instant and the
expiration instant, and `status` is the fixed threshold-independent
classification of `days_remaining` (`get_certificate_expiry` takes no
threshold at all): EXPIRED below 0, CRITICAL on `[0, 7)`, OK otherwise;
in particular `-1 → EXPIRED`, `0 → CRITICAL`, `6 → CRITICAL`,
`7 → OK`. -/
theorem C2_day_count_and_classification :
    (∀ (domain : String) (env : NetEnv) (now d : Int),
        (get_certificate_expiry domain env now).days_remaining = some d →
        (∃ dt, (get_certificate_expiry domain env now).expires_at = some dt ∧
            d = Int.fdiv (tsOf dt - now) 86400) ∧
          (get_certificate_expiry domain env now).status = statusOf d)
    ∧ (∀ d : Int, (statusOf d = .EXPIRED ↔ d < 0)
        ∧ (statusOf d = .CRITICAL ↔ 0 ≤ d ∧ d < 7)
        ∧ (statusOf d = .OK ↔ 7 ≤ d))
    ∧ statusOf (-1) = .EXPIRED ∧ statusOf 0 = .CRITICAL
    ∧ statusOf 6 = .CRITICAL ∧ statusOf 7 = .OK := by
  refine ⟨?_, ?_, by decide, by decide, by decide, by decide⟩
  · intro domain env now d hd
    rcases gce_shape domain env now with ⟨msg, h⟩ | ⟨dt, h⟩
    · rw [h] at hd
      exact absurd hd (by simp [mkError])
    · rw [h] at hd ⊢
      simp only [classifyResult, daysBetween, Option.some.injEq] at hd ⊢
      exact ⟨⟨dt, rfl, hd.symm⟩, by rw [hd]⟩
  · intro d
    unfold statusOf
    refine ⟨?_, ?_, ?_⟩ <;> split <;> rename_i h <;> try split <;> rename_i h2
    all_goals simp_all <;> omega

/-- C2 witness: a strict-path success at a concrete date. -/
theorem C2_day_count_witness :
    (∃ dt, (get_certificate_expiry "h"
          ⟨.success (some "Jun 15 12:34:56 2025 GMT"), .exn "x", .exn "x"⟩
          0).expires_at = some dt ∧
        (20254 : Int) = Int.fdiv (tsOf dt - 0) 86400) ∧
      (get_certificate_expiry "h"
          ⟨.success (some "Jun 15 12:34:56 2025 GMT"), .exn "x", .exn "x"⟩
          0).status = statusOf 20254 :=
  C2_day_count_and_classification.1 "h"
    ⟨.success (some "Jun 15 12:34:56 2025 GMT"), .exn "x", .exn "x"⟩
    0 20254 (by decide)

/-- C3: the alert predicate is true exactly when the status is ERROR,
the day count is absent, or the day count is strictly below the
threshold; equality with the threshold does not alert, and ERROR alerts
regardless of the day count. -/
theorem C3_alert_predicate :
    (∀ (r : CertResult) (t : Int), check_threshold r t = true ↔
        (r.status = .ERROR ∨ r.days_remaining = none ∨
          ∃ d, r.days_remaining = some d ∧ d < t))
    ∧ (∀ (r : CertResult) (t : Int), r.status = .ERROR →
        check_threshold r t = true)
    ∧ (∀ (r : CertResult) (t d : Int), r.status ≠ .ERROR →
        r.days_remaining = some d → (check_threshold r t = true ↔ d < t))
    ∧ check_threshold ⟨"a", none, some 30, .OK, none⟩ 30 = false
    ∧ check_threshold ⟨"a", none, some 29, .OK, none⟩ 30 = true := by
  have key : ∀ (r : CertResult) (t : Int), check_threshold r t = true ↔
      (r.status = .ERROR ∨ r.days_remaining = none ∨
        ∃ d, r.days_remaining = some d ∧ d < t) := by
    intro r t
    unfold check_threshold
    by_cases hs : r.status = .ERROR
    · simp [hs]
    · cases hd : r.days_remaining with
      | none => simp [hs, hd]
      | some d => simp [hs, hd]
  refine ⟨key, ?_, ?_, by decide, by decide⟩
  · intro r t hs
    exact (key r t).2 (.inl hs)
  · intro r t d hs hd
    rw [key r t]
    simp [hs, hd]

/-- C3 witness: the boundary instances at threshold 30. -/
theorem C3_alert_predicate_witness :
    check_threshold ⟨"a", none, some 365, .ERROR, some "Connection failed"⟩ 30
      = true :=
  C3_alert_predicate.2.1 ⟨"a", none, some 365, .ERROR, some "Connection failed"⟩
    30 rfl

/-- C4: a produced result has status ERROR iff `expires_at` is absent,
iff `days_remaining` is absent, and its `error` field is populated iff
the status is ERROR. -/
theorem C4_result_invariants (domain : String) (env : NetEnv) (now : Int) :
    ((get_certificate_expiry domain env now).status = .ERROR ↔
      (get_certificate_expiry domain env now).expires_at = none)
    ∧ ((get_certificate_expiry domain env now).status = .ERROR ↔
      (get_certificate_expiry domain env now).days_remaining = none)
    ∧ ((get_certificate_expiry domain env now).error ≠ none ↔
      (get_certificate_expiry domain env now).status = .ERROR) := by
  rcases gce_shape domain env now with ⟨msg, h⟩ | ⟨dt, h⟩ <;> rw [h]
  · simp [mkError]
  · simp [classifyResult, statusOf_ne_ERROR]

/-- C4 witness: the invariants at a concrete timeout-style failure. -/
theorem C4_result_invariants_witness :
    ((get_certificate_expiry "h" ⟨.otherError "timed out", .exn "x", .exn "x"⟩
        0).status = .ERROR ↔
      (get_certificate_expiry "h" ⟨.otherError "timed out", .exn "x", .exn "x"⟩
        0).expires_at = none)
    ∧ ((get_certificate_expiry "h" ⟨.otherError "timed out", .exn "x", .exn "x"⟩
        0).status = .ERROR ↔
      (get_certificate_expiry "h" ⟨.otherError "timed out", .exn "x", .exn "x"⟩
        0).days_remaining = none)
    ∧ ((get_certificate_expiry "h" ⟨.otherError "timed out", .exn "x", .exn "x"⟩
        0).error ≠ none ↔
      (get_certificate_expiry "h" ⟨.otherError "timed out", .exn "x", .exn "x"⟩
        0).status = .ERROR) :=
  C4_result_invariants "h" ⟨.otherError "timed out", .exn "x", .exn "x"⟩ 0

/-- C1: the connector always attempts the strict handshake first and
makes at most one relaxed attempt; it falls back exactly when the strict
attempt fails with an `ssl.SSLError` whose message contains
`CERTIFICATE_VERIFY_FAILED`, and on any other failure (non-verification
`SSLError`, DNS failure, refusal, timeout — any other exception) the
result is a terminal ERROR carrying the underlying message with no
relaxed attempt. -/
theorem C1_fallback_protocol (domain : String) (env : NetEnv) (now : Int) :
    ((get_certificate_expiry_run domain env now).2.head? = some .tls)
    ∧ ((get_certificate_expiry_run domain env now).2.count .relaxed ≤ 1)
    ∧ (∀ msg, env.strict = .sslError msg →
        strContains msg "CERTIFICATE_VERIFY_FAILED" = true →
        (get_certificate_expiry_run domain env now).2 = [.tls, .relaxed])
    ∧ (∀ msg, env.strict = .sslError msg →
        strContains msg "CERTIFICATE_VERIFY_FAILED" = false →
        (get_certificate_expiry_run domain env now).2 = [.tls] ∧
          get_certificate_expiry domain env now = mkError domain msg)
    ∧ (∀ msg, env.strict = .otherError msg →
        (get_certificate_expiry_run domain env now).2 = [.tls] ∧
          get_certificate_expiry domain env now = mkError domain msg)
    ∧ (∀ na, env.strict = .success na →
        (get_certificate_expiry_run domain env now).2 = [.tls]) := by
  unfold get_certificate_expiry get_certificate_expiry_run
  cases hst : env.strict with
  | success na =>
    refine ⟨rfl, by dsimp only; decide, ?_, ?_, ?_, ?_⟩
    · intro msg h hc; exact StrictOutcome.noConfusion h
    · intro msg h hc; exact StrictOutcome.noConfusion h
    · intro msg h; exact StrictOutcome.noConfusion h
    · intro na2 h; rfl
  | sslError msg =>
    by_cases hc : strContains msg "CERTIFICATE_VERIFY_FAILED" = true
    · refine ⟨?_, ?_, ?_, ?_, ?_, ?_⟩
      · simp [hc]
      · simp [hc]
      · intro msg2 h hc2
        simp [hc]
      · intro msg2 h hc2
        cases h
        rw [hc] at hc2
        cases hc2
      · intro msg2 h; exact StrictOutcome.noConfusion h
      · intro na h; exact StrictOutcome.noConfusion h
    · rw [Bool.not_eq_true] at hc
      refine ⟨?_, ?_, ?_, ?_, ?_, ?_⟩
      · simp [hc]
      · simp [hc]
      · intro msg2 h hc2
        cases h
        rw [hc] at hc2
        cases hc2
      · intro msg2 h hc2
        cases h
        simp [hc]
      · intro msg2 h; exact StrictOutcome.noConfusion h
      · intro na h; exact StrictOutcome.noConfusion h
  | otherError msg =>
    refine ⟨rfl, by dsimp only; decide, ?_, ?_, ?_, ?_⟩
    · intro msg2 h hc; exact StrictOutcome.noConfusion h
    · intro msg2 h hc; exact StrictOutcome.noConfusion h
    · intro msg2 h
      cases h
      exact ⟨rfl, rfl⟩
    · intro na h; exact StrictOutcome.noConfusion h

/-- C1 witness: a verification failure triggers exactly the two-attempt
trace. -/
theorem C1_fallback_protocol_witness :
    (get_certificate_expiry_run "h"
        ⟨.sslError "certificate verify failed: CERTIFICATE_VERIFY_FAILED",
          .exn "refused", .exn "x"⟩ 0).2 = [.tls, .relaxed] :=
  (C1_fallback_protocol "h"
      ⟨.sslError "certificate verify failed: CERTIFICATE_VERIFY_FAILED",
        .exn "refused", .exn "x"⟩ 0).2.2.1
    "certificate verify failed: CERTIFICATE_VERIFY_FAILED" rfl (by decide)

/-- C6: the relaxed-path end-date parser (strptime with the
double-space format `%b  %d %H:%M:%S %Y %Z`) accepts both the
single-space and the double-space day padding that openssl may emit for
single-digit days, and parses the same instant either way. -/
theorem C6_enddate_padding (d : Nat) (h1 : 1 ≤ d) (h9 : d ≤ 9) :
    strptime_enddate (String.mk ('J' :: 'u' :: 'n' :: ' ' :: ' ' ::
        Char.ofNat (48 + d) :: " 12:34:56 2026 GMT".data))
      = strptime_enddate (String.mk ('J' :: 'u' :: 'n' :: ' ' ::
        Char.ofNat (48 + d) :: " 12:34:56 2026 GMT".data))
    ∧ strptime_enddate (String.mk ('J' :: 'u' :: 'n' :: ' ' :: ' ' ::
        Char.ofNat (48 + d) :: " 12:34:56 2026 GMT".data))
      = some ⟨2026, 6, d, 12, 34, 56⟩ := by
  interval_cases d <;> exact ⟨by decide, by decide⟩

/-- C6 witness: day 9, the shape openssl prints as `Jun  9`. -/
theorem C6_enddate_padding_witness :
    strptime_enddate (String.mk ('J' :: 'u' :: 'n' :: ' ' :: ' ' ::
        Char.ofNat (48 + 9) :: " 12:34:56 2026 GMT".data))
      = strptime_enddate (String.mk ('J' :: 'u' :: 'n' :: ' ' ::
        Char.ofNat (48 + 9) :: " 12:34:56 2026 GMT".data))
    ∧ strptime_enddate (String.mk ('J' :: 'u' :: 'n' :: ' ' :: ' ' ::
        Char.ofNat (48 + 9) :: " 12:34:56 2026 GMT".data))
      = some ⟨2026, 6, 9, 12, 34, 56⟩ :=
  C6_enddate_padding 9 (by decide) (by decide)

/-- C5: what `parse_domains` (src/main.py:52-54) actually returns at the
claimed inputs: plain hostname strings — a colon entry comes back
verbatim as a single string, and no `(hostname, remediationURL)` pair is
ever produced (the return type is a list of strings).  The repository's
own test suite (`TestParseDomains`) asserts the pair-returning contract
instead, which `src/main.py` does not implement. -/
theorem C5_parse_domains_returns_strings :
    parse_domains "a.com,b.com" = ["a.com", "b.com"]
    ∧ parse_domains "a.com:https://runbook.co/x,b.com" =
        ["a.com:https://runbook.co/x", "b.com"] :=
  ⟨by decide, by decide⟩

/-- C7: an empty domain specification aborts with the configuration
error before any domain is checked (for every network behaviour, the
outcome is the same error and no result list exists); for any non-empty
specification the run returns normally with exactly one result per
parsed domain, in order, each naming its domain — per-domain failures
are values of `get_certificate_expiry`, never exceptions. -/
theorem C7_config_fatal_and_isolation :
    (∀ (threshold : Int) (net : String → NetEnv) (now : Int) (gha : Bool),
        main_run "" threshold net now gha = .error "Missing MONITOR_DOMAINS")
    ∧ (∀ (s : String) (threshold : Int) (net : String → NetEnv) (now : Int)
          (gha : Bool), s ≠ "" →
        ∃ out, main_run s threshold net now gha = .ok out ∧
          out.results = (parse_domains s).map
            (fun d => get_certificate_expiry d (net d) now) ∧
          out.results.length = (parse_domains s).length)
    ∧ (∀ (domain : String) (env : NetEnv) (now : Int),
        (get_certificate_expiry domain env now).domain = domain) := by
  refine ⟨?_, ?_, gce_domain_eq⟩
  · intro t net now gha
    rfl
  · intro s t net now gha hs
    have hv : validate_config s = .ok () := by
      unfold validate_config
      rw [if_neg hs]
    unfold main_run
    rw [hv]
    dsimp only
    split
    · exact ⟨_, rfl, rfl, by simp⟩
    · exact ⟨_, rfl, rfl, by simp⟩

/-- C7 witness: a one-domain run whose only check fails with a DNS
error still yields exactly one (ERROR) result. -/
theorem C7_config_fatal_witness :
    ∃ out, main_run "a.com" 30
        (fun _ => ⟨.otherError "getaddrinfo failed", .exn "x", .exn "x"⟩) 0 false
        = .ok out ∧
      out.results = (parse_domains "a.com").map
        (fun d => get_certificate_expiry d
          ((fun _ => (⟨.otherError "getaddrinfo failed", .exn "x", .exn "x"⟩ :
            NetEnv)) d) 0) ∧
      out.results.length = (parse_domains "a.com").length :=
  C7_config_fatal_and_isolation.2.1 "a.com" 30
    (fun _ => ⟨.otherError "getaddrinfo failed", .exn "x", .exn "x"⟩) 0 false
    (by decide)

/-- C9: the run returns normally for every valid configuration;
the returned code is 1 exactly when some result satisfies the alert
predicate and 0 exactly when none does. -/
theorem C9_exit_code (s : String) (t : Int) (net : String → NetEnv)
    (now : Int) (gha : Bool) (hs : s ≠ "") :
    ∃ out, main_run s t net now gha = .ok out ∧
      (out.exitCode = 0 ∨ out.exitCode = 1) ∧
      (out.exitCode = 1 ↔ ∃ r ∈ out.results, check_threshold r t = true) ∧
      (out.exitCode = 0 ↔ ∀ r ∈ out.results, check_threshold r t = false) := by
  have hv : validate_config s = .ok () := by
    unfold validate_config
    rw [if_neg hs]
  unfold main_run
  rw [hv]
  dsimp only
  by_cases he : (((parse_domains s).map
      (fun d => get_certificate_expiry d (net d) now)).filter
        (fun r => check_threshold r t)).isEmpty
  · rw [if_pos he]
    rw [List.isEmpty_iff, List.filter_eq_nil_iff] at he
    refine ⟨_, rfl, .inl rfl, ?_, ?_⟩
    · simp only [MainOutcome.exitCode, MainOutcome.results]
      constructor
      · intro h01
        exact absurd h01 (by decide)
      · rintro ⟨r, hr, hpred⟩
        exact absurd hpred (by simpa using he r hr)
    · simp only [MainOutcome.exitCode, MainOutcome.results]
      constructor
      · intro _ r hr
        simpa using he r hr
      · intro _
        trivial
  · rw [if_neg he]
    rw [List.isEmpty_iff] at he
    refine ⟨_, rfl, .inr rfl, ?_, ?_⟩
    · simp only [MainOutcome.exitCode, MainOutcome.results]
      constructor
      · intro _
        obtain ⟨r, hr⟩ := List.exists_mem_of_ne_nil _ he
        exact ⟨r, (List.mem_filter.mp hr).1, (List.mem_filter.mp hr).2⟩
      · intro _
        trivial
    · simp only [MainOutcome.exitCode, MainOutcome.results]
      constructor
      · intro h10
        exact absurd h10 (by decide)
      · intro hall
        exact absurd (List.filter_eq_nil_iff.mpr
          (fun r hr => by simp [hall r hr])) he

/-- C9 witness: a healthy run returns 0 and an alerting run returns 1,
both normally. -/
theorem C9_exit_code_witness :
    ∃ out, main_run "a.com" 30
        (fun _ => ⟨.otherError "refused", .exn "x", .exn "x"⟩) 0 false
        = .ok out ∧
      (out.exitCode = 0 ∨ out.exitCode = 1) ∧
      (out.exitCode = 1 ↔ ∃ r ∈ out.results, check_threshold r 30 = true) ∧
      (out.exitCode = 0 ↔ ∀ r ∈ out.results, check_threshold r 30 = false) :=
  C9_exit_code "a.com" 30 (fun _ => ⟨.otherError "refused", .exn "x", .exn "x"⟩)
    0 false (by decide)

/-- C8: with a designated output sink, the batch-output step appends
exactly one `alerts=<json>` line when the alert batch is non-empty —
`<json>` being the `json.dumps` array with one
`{domain, status, days_remaining, expires_at, error}` object per
alerting result (see `jsonOfAlert`/`alertsJson`), in the order the
results hold, which is the input domain order — and appends nothing
when no result alerts. -/
theorem C8_gha_output (s : String) (t : Int) (net : String → NetEnv)
    (now : Int) (out : MainOutcome)
    (h : main_run s t net now true = .ok out) :
    (out.results.filter (fun r => check_threshold r t) ≠ [] →
      out.ghaLines = ["alerts=" ++
        alertsJson (out.results.filter (fun r => check_threshold r t))])
    ∧ (out.results.filter (fun r => check_threshold r t) = [] →
      out.ghaLines = []) := by
  by_cases hs : s = ""
  · subst hs
    exact absurd h (by simp [main_run, validate_config])
  · have hv : validate_config s = .ok () := by
      unfold validate_config
      rw [if_neg hs]
    unfold main_run at h
    rw [hv] at h
    dsimp only at h
    split at h
    · rename_i he
      injection h with h2
      subst h2
      refine ⟨?_, fun _ => rfl⟩
      intro hne
      exact absurd (List.isEmpty_iff.mp he) hne
    · rename_i he
      injection h with h2
      subst h2
      refine ⟨fun _ => rfl, ?_⟩
      intro heq
      exact absurd heq (by simpa [List.isEmpty_iff] using he)

/-- The concrete outcome of a one-domain alerting run, for the C8
witness. -/
def c8OutW : MainOutcome :=
  ⟨[⟨"a.com", none, none, .ERROR, some "refused"⟩], 1,
    ["alerts=" ++ alertsJson [⟨"a.com", none, none, .ERROR, some "refused"⟩]]⟩

/-- C8 witness: a run with one alerting (ERROR) result writes exactly
the one `alerts=<json>` line. -/
theorem C8_gha_output_witness :
    (c8OutW.results.filter (fun r => check_threshold r 30) ≠ [] →
      c8OutW.ghaLines = ["alerts=" ++
        alertsJson (c8OutW.results.filter (fun r => check_threshold r 30))])
    ∧ (c8OutW.results.filter (fun r => check_threshold r 30) = [] →
      c8OutW.ghaLines = []) :=
  C8_gha_output "a.com" 30
    (fun _ => ⟨.otherError "refused", .exn "x", .exn "x"⟩) 0 c8OutW rfl

/-- Splitting a string of only commas and whitespace on commas yields
pieces of only whitespace. -/
theorem splitChar_comma_ws {cs : List Char}
    (h : ∀ c ∈ cs, c = ',' ∨ c.isWhitespace = true) :
    ∀ p ∈ splitChar ',' cs, ∀ c ∈ p, c.isWhitespace = true := by
  induction cs with
  | nil =>
    intro p hp c hc
    simp only [splitChar, List.mem_singleton] at hp
    subst hp
    cases hc
  | cons a as ih =>
    have has : ∀ c ∈ as, c = ',' ∨ c.isWhitespace = true :=
      fun c hc => h c (List.mem_cons_of_mem a hc)
    intro p hp c hc
    by_cases hac : a = ','
    · rw [show splitChar ',' (a :: as) = [] :: splitChar ',' as by
        simp [splitChar, hac]] at hp
      rcases List.mem_cons.mp hp with rfl | hp2
      · cases hc
      · exact ih has p hp2 c hc
    · have haw : a.isWhitespace = true := (h a (List.mem_cons_self a as)).resolve_left hac
      rw [show splitChar ',' (a :: as) =
          (match splitChar ',' as with
           | [] => [[a]]
           | q :: qs => (a :: q) :: qs) by
        simp [splitChar, hac]] at hp
      cases hsp : splitChar ',' as with
      | nil =>
        rw [hsp] at hp
        simp only [List.mem_singleton] at hp
        subst hp
        rcases List.mem_singleton.mp hc with rfl
        exact haw
      | cons q qs =>
        rw [hsp] at hp
        rcases List.mem_cons.mp hp with rfl | hp2
        · rcases List.mem_cons.mp hc with rfl | hc2
          · exact haw
          · exact ih has q (hsp ▸ List.mem_cons_self q qs) c hc2
        · exact ih has p (hsp ▸ List.mem_cons_of_mem q hp2) c hc

/-- Stripping an all-whitespace char list leaves nothing. -/
theorem stripChars_eq_nil {cs : List Char}
    (h : ∀ c ∈ cs, c.isWhitespace = true) : stripChars cs = [] := by
  unfold stripChars
  rw [List.dropWhile_eq_nil_iff.mpr h]
  rfl

/-- A non-empty specification of only commas and whitespace parses to
no domains. -/
theorem parse_domains_comma_ws {s : String}
    (h : ∀ c ∈ s.data, c = ',' ∨ c.isWhitespace = true) :
    parse_domains s = [] := by
  unfold parse_domains
  rw [List.filter_eq_nil_iff]
  intro a ha
  simp only [pySplit, List.map_map, List.mem_map, Function.comp] at ha
  obtain ⟨p, hp, rfl⟩ := ha
  have hnil : stripChars p = [] := stripChars_eq_nil (splitChar_comma_ws h p hp)
  simp [pyStrip, hnil]

/-- C10: every domain specification that is non-empty but consists only
of commas and whitespace passes validation, parses to no domains at
all, and the run returns the all-healthy outcome — zero results, return
value 0, nothing written — for every threshold, network behaviour,
clock and sink. -/
theorem C10_whitespace_commas_all_healthy (s : String) (t : Int)
    (net : String → NetEnv) (now : Int) (gha : Bool) (hne : s ≠ "")
    (hcw : ∀ c ∈ s.data, c = ',' ∨ c.isWhitespace = true) :
    validate_config s = .ok ()
    ∧ parse_domains s = []
    ∧ main_run s t net now gha = .ok ⟨[], 0, []⟩ := by
  have hv : validate_config s = .ok () := by
    unfold validate_config
    rw [if_neg hne]
  have hp : parse_domains s = [] := parse_domains_comma_ws hcw
  refine ⟨hv, hp, ?_⟩
  unfold main_run
  rw [hv]
  dsimp only
  rw [hp]
  rfl

/-- C10 witness: the all-healthy outcome at the concrete specification
`" , ,"`. -/
theorem C10_whitespace_commas_witness :
    validate_config " , ," = .ok ()
    ∧ parse_domains " , ," = []
    ∧ main_run " , ," 30
        (fun _ => ⟨.otherError "x", .exn "x", .exn "x"⟩) 0 false
        = .ok ⟨[], 0, []⟩ :=
  C10_whitespace_commas_all_healthy " , ," 30
    (fun _ => ⟨.otherError "x", .exn "x", .exn "x"⟩) 0 false
    (by decide) (by decide)

end TLSMon

section StrptimeChecks

open TLSMon

example : strptime_notAfter "Jun 15 12:34:56 2025 GMT" =
    some ⟨2025, 6, 15, 12, 34, 56⟩ := by decide

example : strptime_enddate "Oct  9 23:59:59 2026 GMT" =
    some ⟨2026, 10, 9, 23, 59, 59⟩ := by decide

example : strptime_enddate "Feb 30 00:00:00 2025 GMT" = none := by decide

example : daysFromCivil 1970 1 1 = 0 := by decide

example : daysFromCivil 2000 3 1 = 11017 := by decide

example : parse_domains " , ," = [] := by decide

example : parse_domains "a.com,b.com" = ["a.com", "b.com"] := by decide

example : parse_domains "  a.com  , b.com : https://r.io " =
    ["a.com", "b.com : https://r.io"] := by decide

example : strContains "x CERTIFICATE_VERIFY_FAILED y" "CERTIFICATE_VERIFY_FAILED"
    = true := by decide

end StrptimeChecks
